import Mathlib

/-!
Verification of `.github/workflows/run-evaluator.py`, a 44-line orchestration
script.  The script reads positional command-line arguments, provisions a
browser driver binary, starts a driver server on a fixed port, builds the
evaluator command line, and runs the evaluator as a child process.

The embedding is a pure function from the script's external inputs — the
current working directory (used by `Path.resolve`), the path returned by the
driver provisioner, the evaluator's exit code, and the argument list
`sys.argv[1:]` — to an `Outcome`: the ordered trace of observable effects
together with the script's own result.  Filesystem paths are strings;
`Path.resolve` is modelled as absolutisation against the working directory
(symlink resolution and `.`/`..` normalisation are abstracted away, only
absoluteness is relevant to the specification).
-/

namespace RunEvaluator

/-- Line 14: `PORT = 4444`. -/
def PORT : Nat := 4444

/-- A POSIX path is absolute when its first character is the root separator. -/
def isAbsolute (p : String) : Bool := p.data.head? = some '/'

/-- Model of Python `Path(p).resolve()` relative to the working directory
`cwd`: an absolute path is returned as is, a relative path is anchored at
`cwd`.  (Symlink and dot-segment normalisation are abstracted away.) -/
def resolve (cwd p : String) : String :=
  if isAbsolute p then p else cwd ++ "/" ++ p

/-- Uncaught Python exceptions relevant to the script. -/
inductive PyError where
  | indexError
  deriving DecidableEq, Repr

/-- Observable effects of the script, in program order.  `driverRequest` is
in the vocabulary so that absence of launcher→server communication is a
statement about traces rather than about the event type. -/
inductive Event where
  | logDebug (msg : String)
  | provisionDriver
  | startDriverServer (execPath : String) (port : Nat) (options : List String)
  | driverRequest (msg : String)
  | runSubprocess (cmd : List String)
  deriving DecidableEq, Repr

/-- Lines 20-22: the browser options object with `--headless` and
`--window-size=1920,1080` added. -/
def chromeOptions : List String := ["--headless", "--window-size=1920,1080"]

/-- Lines 15-17, on `args = sys.argv[1:]`:
`BOOK_DIRECTORY = Path(sys.argv[1])`, `VIOLATIONS_FILE = Path(sys.argv[2])`,
`EXTRA_OPTIONS = sys.argv[3:]`.  A missing positional argument raises
`IndexError`. -/
def parseArgs (args : List String) :
    Except PyError (String × String × List String) :=
  match args with
  | book :: violations :: extra => .ok (book, violations, extra)
  | _ => .error .indexError

/-- The script's variables during command construction. -/
structure VarState where
  BOOK_DIRECTORY : String
  VIOLATIONS_FILE : String
  EXTRA_OPTIONS : List String
  SUBPROCESS : List String
  deriving DecidableEq, Repr

/-- Lines 30-41: build `SUBPROCESS`, then `SUBPROCESS.extend(EXTRA_OPTIONS)`
(mutates only the receiver), then `SUBPROCESS.append(BOOK_DIRECTORY.resolve())`. -/
def buildSubprocess (cwd : String) (s : VarState) : VarState :=
  let s1 := { s with SUBPROCESS :=
    ["mdbook-slide-evaluator",
     "--webdriver",
     "http://localhost:" ++ toString PORT,
     "--export",
     resolve cwd s.VIOLATIONS_FILE] }
  let s2 := { s1 with SUBPROCESS := s1.SUBPROCESS ++ s1.EXTRA_OPTIONS }
  let s3 := { s2 with SUBPROCESS := s2.SUBPROCESS ++ [resolve cwd s2.BOOK_DIRECTORY] }
  s3

/-- Result of a whole run: the effect trace and the script's own result
(`Except.error` is an uncaught exception, `Except.ok` a status-0 exit). -/
structure Outcome where
  trace : List Event
  result : Except PyError Unit
  deriving Repr

/-- The whole script.  `cwd` is the working directory, `installedPath` the
value returned by `ChromeDriverManager().install()`, `evaluatorExit` the
exit status of the evaluator child process (the `CompletedProcess` returned
by `subprocess.run` on line 44, which the script never reads), and `args`
is `sys.argv[1:]`. -/
def script (cwd installedPath : String) (evaluatorExit : Int)
    (args : List String) : Outcome :=
  match parseArgs args with
  | .error e => { trace := [], result := .error e }
  | .ok (book, violations, extra) =>
    let s0 : VarState :=
      { BOOK_DIRECTORY := book, VIOLATIONS_FILE := violations,
        EXTRA_OPTIONS := extra, SUBPROCESS := [] }
    let chrome_driver := installedPath
    let s1 := buildSubprocess cwd s0
    let _completed := evaluatorExit
    { trace :=
        [ .logDebug ("using extra options: " ++ toString extra),
          .provisionDriver,
          .startDriverServer chrome_driver PORT chromeOptions,
          .runSubprocess s1.SUBPROCESS ],
      result := .ok () }

/-- The commands of all child processes executed in a trace, in order. -/
def subprocessCommands (t : List Event) : List (List String) :=
  t.filterMap fun ev =>
    match ev with
    | .runSubprocess cmd => some cmd
    | _ => none

/-- Whether an event is a message from the launcher to the driver server. -/
def isDriverMessage : Event → Bool
  | .driverRequest _ => true
  | _ => false

/-- Whether an event is a driver-provisioning call. -/
def isProvision : Event → Bool
  | .provisionDriver => true
  | _ => false

/-! Helper lemmas shared by the claim theorems. -/

/-- The f-string on line 33 with `PORT = 4444` substituted. -/
theorem url_eq : "http://localhost:" ++ toString PORT = "http://localhost:4444" := by
  decide

/-- With at least two positional arguments the run is the four-event trace of
lines 19, 25, 27-28 and 44, exiting with status 0. -/
theorem script_cons_cons (cwd installedPath : String) (e : Int)
    (book violations : String) (extra : List String) :
    script cwd installedPath e (book :: violations :: extra) =
      { trace :=
          [ .logDebug ("using extra options: " ++ toString extra),
            .provisionDriver,
            .startDriverServer installedPath PORT chromeOptions,
            .runSubprocess
              (["mdbook-slide-evaluator", "--webdriver",
                "http://localhost:" ++ toString PORT, "--export",
                resolve cwd violations] ++ extra ++ [resolve cwd book]) ],
        result := .ok () } := rfl

/-- The single child-process command of a run with at least two positional
arguments. -/
theorem subprocessCommands_script (cwd installedPath : String) (e : Int)
    (book violations : String) (extra : List String) :
    subprocessCommands
        (script cwd installedPath e (book :: violations :: extra)).trace =
      [["mdbook-slide-evaluator", "--webdriver", "http://localhost:4444",
        "--export", resolve cwd violations] ++ extra ++ [resolve cwd book]] := by
  rw [script_cons_cons, ← url_eq]
  rfl

/-- Appending on the right preserves absoluteness. -/
theorem isAbsolute_append (a b : String) (h : isAbsolute a = true) :
    isAbsolute (a ++ b) = true := by
  simp only [isAbsolute, String.data_append, decide_eq_true_eq] at h ⊢
  cases hd : a.data with
  | nil => rw [hd] at h; simp at h
  | cons c t => rw [hd] at h; simp at h; simp [h]

/-- Resolving against an absolute working directory yields an absolute path. -/
theorem isAbsolute_resolve (cwd p : String) (h : isAbsolute cwd = true) :
    isAbsolute (resolve cwd p) = true := by
  unfold resolve
  by_cases hp : isAbsolute p = true
  · simp [hp]
  · simp only [hp, Bool.false_eq_true, if_false]
    exact isAbsolute_append _ _ (isAbsolute_append _ _ h)

/-- C1: with at least two positional arguments, the executed evaluator command
is exactly the evaluator name, then `--webdriver` with the endpoint URL, then
`--export` with the resolved export path, then every extra option in original
order, ending with the resolved book directory as its final element. -/
theorem C1_evaluator_command_order (cwd installedPath : String) (e : Int)
    (book violations : String) (extra : List String) :
    subprocessCommands
        (script cwd installedPath e (book :: violations :: extra)).trace =
      [["mdbook-slide-evaluator", "--webdriver", "http://localhost:4444",
        "--export", resolve cwd violations] ++ extra ++ [resolve cwd book]] :=
  subprocessCommands_script cwd installedPath e book violations extra

/-- C2: in every executed evaluator command, the value placed after
`--export` (index 4) and the final element (the book directory) are absolute
paths, provided the working directory is absolute, even when the arguments
were supplied as relative paths. -/
theorem C2_absolute_paths (cwd installedPath : String) (e : Int)
    (book violations : String) (extra : List String)
    (hcwd : isAbsolute cwd = true) :
    ∀ cmd ∈ subprocessCommands
        (script cwd installedPath e (book :: violations :: extra)).trace,
      ∃ p q, cmd.get? 4 = some p ∧ isAbsolute p = true ∧
        cmd.getLast? = some q ∧ isAbsolute q = true := by
  intro cmd hc
  rw [subprocessCommands_script] at hc
  simp only [List.mem_singleton] at hc
  subst hc
  refine ⟨resolve cwd violations, resolve cwd book, rfl,
    isAbsolute_resolve cwd violations hcwd, ?_, isAbsolute_resolve cwd book hcwd⟩
  show ((_ :: _ :: _ :: _ :: _ :: extra) ++ [resolve cwd book]).getLast? = _
  rw [List.getLast?_concat]

/-- C2 witness: a run from the absolute working directory "/work" with
relative arguments produces absolute export and book-directory values. -/
theorem C2_absolute_paths_witness :
    isAbsolute "/work" = true ∧
    ∀ cmd ∈ subprocessCommands
        (script "/work" "/drv" 0 ("book" :: "out.csv" :: ["--strict"])).trace,
      ∃ p q, cmd.get? 4 = some p ∧ isAbsolute p = true ∧
        cmd.getLast? = some q ∧ isAbsolute q = true :=
  ⟨by decide,
   C2_absolute_paths "/work" "/drv" 0 "book" "out.csv" ["--strict"] (by decide)⟩

/-- C3: for every invocation with at least two positional arguments,
whatever the extra options, the driver server is started on port 4444
(`PORT` is the constant 4444, independent of all command-line input), and the
endpoint placed after `--webdriver` (index 2) is exactly
"http://localhost:4444". -/
theorem C3_fixed_port (cwd installedPath : String) (e : Int)
    (book violations : String) (extra : List String) :
    PORT = 4444 ∧
    Event.startDriverServer installedPath 4444 chromeOptions ∈
      (script cwd installedPath e (book :: violations :: extra)).trace ∧
    (∀ execPath port opts,
      Event.startDriverServer execPath port opts ∈
        (script cwd installedPath e (book :: violations :: extra)).trace →
      port = 4444) ∧
    ∀ cmd ∈ subprocessCommands
        (script cwd installedPath e (book :: violations :: extra)).trace,
      cmd.get? 2 = some "http://localhost:4444" := by
  refine ⟨rfl, ?_, ?_, ?_⟩
  · rw [script_cons_cons]; simp [PORT]
  · intro execPath port opts hmem
    rw [script_cons_cons] at hmem
    simp only [List.mem_cons, List.mem_singleton] at hmem
    rcases hmem with h | h | h | h <;> first
      | (cases h; rfl)
      | exact absurd h (by simp)
  · intro cmd hc
    rw [subprocessCommands_script] at hc
    simp only [List.mem_singleton] at hc
    subst hc
    rfl

/-- C3 witness: a concrete run with one extra option starts the server on
port 4444 and passes the fixed endpoint URL. -/
theorem C3_fixed_port_witness :
    PORT = 4444 ∧
    Event.startDriverServer "/drv" 4444 chromeOptions ∈
      (script "/w" "/drv" 0 ("b" :: "v" :: ["--x"])).trace ∧
    (∀ execPath port opts,
      Event.startDriverServer execPath port opts ∈
        (script "/w" "/drv" 0 ("b" :: "v" :: ["--x"])).trace → port = 4444) ∧
    ∀ cmd ∈ subprocessCommands (script "/w" "/drv" 0 ("b" :: "v" :: ["--x"])).trace,
      cmd.get? 2 = some "http://localhost:4444" :=
  C3_fixed_port "/w" "/drv" 0 "b" "v" ["--x"]

/-- C4: the run waits for the evaluator child process (the `runSubprocess`
event is the final event, after which the script exits with status 0) and its
whole outcome — trace and own result — is identical for every evaluator exit
status. -/
theorem C4_exit_code_ignored (cwd installedPath : String) (e1 e2 : Int)
    (args : List String) :
    script cwd installedPath e1 args = script cwd installedPath e2 args ∧
    ∀ book violations extra,
      (script cwd installedPath e1 (book :: violations :: extra)).result =
        .ok () ∧
      ∃ cmd,
        (script cwd installedPath e1 (book :: violations :: extra)).trace.getLast?
          = some (.runSubprocess cmd) := by
  refine ⟨rfl, ?_⟩
  intro book violations extra
  rw [script_cons_cons]
  exact ⟨rfl, _, rfl⟩

/-- C5: the argument resolver maps the token list to exactly the first token
as book directory, the second as export path, and the remaining tokens
verbatim in order; those tokens are forwarded unchanged to the evaluator
(positions 5 onward of the command, before the trailing directory). -/
theorem C5_argument_resolver (cwd installedPath : String) (e : Int)
    (book violations : String) (extra : List String) :
    parseArgs (book :: violations :: extra) =
      Except.ok (book, violations, extra) ∧
    ∀ cmd ∈ subprocessCommands
        (script cwd installedPath e (book :: violations :: extra)).trace,
      cmd.drop 5 = extra ++ [resolve cwd book] := by
  refine ⟨rfl, ?_⟩
  intro cmd hc
  rw [subprocessCommands_script] at hc
  simp only [List.mem_singleton] at hc
  subst hc
  rfl

/-- C5 witness: a concrete resolver run with two extra options. -/
theorem C5_argument_resolver_witness :
    parseArgs ("b" :: "v" :: ["--strict", "--threshold=5"]) =
      Except.ok ("b", "v", ["--strict", "--threshold=5"]) ∧
    ∀ cmd ∈ subprocessCommands
        (script "/w" "/drv" 0 ("b" :: "v" :: ["--strict", "--threshold=5"])).trace,
      cmd.drop 5 = ["--strict", "--threshold=5"] ++ [resolve "/w" "b"] :=
  C5_argument_resolver "/w" "/drv" 0 "b" "v" ["--strict", "--threshold=5"]

/-- C6: with no positional tokens the run fails with the index-error class,
its trace is empty — so no child process is run, no provisioning call is
made, and no driver server is started. -/
theorem C6_missing_book_directory (cwd installedPath : String) (e : Int) :
    (script cwd installedPath e []).result = Except.error PyError.indexError ∧
    (script cwd installedPath e []).trace = [] ∧
    subprocessCommands (script cwd installedPath e []).trace = [] ∧
    (script cwd installedPath e []).trace.countP isProvision = 0 ∧
    ∀ execPath port opts,
      Event.startDriverServer execPath port opts ∉
        (script cwd installedPath e []).trace := by
  refine ⟨rfl, rfl, rfl, rfl, ?_⟩
  intro execPath port opts h
  simp [script, parseArgs] at h

/-- C6 witness: a concrete run with an empty argument list. -/
theorem C6_missing_book_directory_witness :
    (script "/w" "/drv" 0 []).result = Except.error PyError.indexError ∧
    (script "/w" "/drv" 0 []).trace = [] ∧
    subprocessCommands (script "/w" "/drv" 0 []).trace = [] ∧
    (script "/w" "/drv" 0 []).trace.countP isProvision = 0 ∧
    ∀ execPath port opts,
      Event.startDriverServer execPath port opts ∉ (script "/w" "/drv" 0 []).trace :=
  C6_missing_book_directory "/w" "/drv" 0

/-- C7: the trace holds no launcher-to-server message at all, and the
server-start event is immediately followed by the evaluator invocation, so
nothing is sent to the server between the two. -/
theorem C7_no_driver_communication (cwd installedPath : String) (e : Int)
    (book violations : String) (extra : List String) :
    (script cwd installedPath e (book :: violations :: extra)).trace.filter
        isDriverMessage = [] ∧
    ∃ t0 cmd,
      (script cwd installedPath e (book :: violations :: extra)).trace =
        t0 ++ [Event.startDriverServer installedPath PORT chromeOptions,
               Event.runSubprocess cmd] := by
  rw [script_cons_cons]
  exact ⟨rfl, [_, _], _, rfl⟩

/-- C8: each run that reaches provisioning makes exactly one provisioning
call, and every server start uses precisely the executable path that call
returned. -/
theorem C8_single_provisioning (cwd installedPath : String) (e : Int)
    (book violations : String) (extra : List String) :
    (script cwd installedPath e (book :: violations :: extra)).trace.countP
        isProvision = 1 ∧
    Event.startDriverServer installedPath PORT chromeOptions ∈
      (script cwd installedPath e (book :: violations :: extra)).trace ∧
    ∀ execPath port opts,
      Event.startDriverServer execPath port opts ∈
        (script cwd installedPath e (book :: violations :: extra)).trace →
      execPath = installedPath := by
  rw [script_cons_cons]
  refine ⟨rfl, by simp, ?_⟩
  intro execPath port opts hmem
  simp only [List.mem_cons, List.mem_singleton] at hmem
  rcases hmem with h | h | h | h <;> first
    | (cases h; rfl)
    | exact absurd h (by simp)

/-- C8 witness: a concrete run provisions once and starts the server with
the provisioned path. -/
theorem C8_single_provisioning_witness :
    (script "/w" "/drv" 0 ("b" :: "v" :: [])).trace.countP isProvision = 1 ∧
    Event.startDriverServer "/drv" PORT chromeOptions ∈
      (script "/w" "/drv" 0 ("b" :: "v" :: [])).trace ∧
    ∀ execPath port opts,
      Event.startDriverServer execPath port opts ∈
        (script "/w" "/drv" 0 ("b" :: "v" :: [])).trace → execPath = "/drv" :=
  C8_single_provisioning "/w" "/drv" 0 "b" "v" []

/-- C9: building the evaluator command mutates only `SUBPROCESS`; the book
directory, export path and extra-options variables are unchanged, even
though the extra options were appended to the command. -/
theorem C9_parameters_immutable (cwd : String) (s : VarState) :
    (buildSubprocess cwd s).EXTRA_OPTIONS = s.EXTRA_OPTIONS ∧
    (buildSubprocess cwd s).BOOK_DIRECTORY = s.BOOK_DIRECTORY ∧
    (buildSubprocess cwd s).VIOLATIONS_FILE = s.VIOLATIONS_FILE ∧
    (buildSubprocess cwd s).SUBPROCESS.drop 5 =
      s.EXTRA_OPTIONS ++ [resolve cwd s.BOOK_DIRECTORY] :=
  ⟨rfl, rfl, rfl, rfl⟩

/-- C10: with exactly two positional arguments and no extra options the
command is exactly the six elements, with the resolved book directory
immediately after the resolved export path. -/
theorem C10_no_extras_command (cwd installedPath : String) (e : Int)
    (book violations : String) :
    subprocessCommands (script cwd installedPath e [book, violations]).trace =
      [["mdbook-slide-evaluator", "--webdriver", "http://localhost:4444",
        "--export", resolve cwd violations, resolve cwd book]] ∧
    (["mdbook-slide-evaluator", "--webdriver", "http://localhost:4444",
      "--export", resolve cwd violations, resolve cwd book] : List String).length
      = 6 := by
  refine ⟨?_, rfl⟩
  rw [subprocessCommands_script cwd installedPath e book violations []]
  simp

end RunEvaluator

